import Mathlib

/-!
Verification of the onelogin Go client library core: the OAuth token
lifecycle (`oauth.go`) and the login / MFA state machine (`login.go`).

Go values are shallowly embedded:
  * `time.Time` instants are unbounded integers counting nanoseconds since
    January 1 of year 1 UTC (Go's internal epoch); the Go zero `time.Time`
    is `0` on this scale and `time.Unix(sec, 0)` is
    `(62135596800 + sec) * 10^9`.  `t.UTC()` does not change the instant,
    so it is the identity here.
  * `time.Duration` is a 64-bit signed count of nanoseconds; products such
    as `time.Second * time.Duration(e)` wrap modulo `2^64` into the signed
    range, which `wrap64` captures.
  * fallible Go calls return `Except GoError α` (Go `(α, error)`), and Go
    pointers become `Option`.
  * the HTTP transport (`client.Do` plus body read) is a parameter: a
    function from the request parameters (or directly the result) to
    `Except GoError String`; JSON decoding functions are parameters too,
    so every theorem holds for every possible host response and decoder.
-/

/-- Wrap an unbounded integer into the signed 64-bit range, as Go's
`int64` arithmetic (`time.Duration` products) does. -/
def wrap64 (x : Int) : Int :=
  (x + 2 ^ 63) % 2 ^ 64 - 2 ^ 63

/-- Go `time.Unix (sec, 0)` on the nanoseconds-since-year-1 scale:
the Unix epoch is 62135596800 s after Go's zero time. -/
def goUnix (sec : Int) : Int :=
  (62135596800 + sec) * 1000000000

/-- The zero `time.Time` (uninitialized `CreatedAt`). -/
def goZeroTime : Int := 0

/-- `t.Add(d)`: Go adds the duration's nanoseconds to the instant. -/
def timeAdd (t d : Int) : Int := t + d

/-- `t.After(u)`: strict comparison of instants. -/
def timeAfter (t u : Int) : Bool := decide (u < t)

/-- `oauthToken.isExpired` from `oauth.go`:
`now().UTC().Add(-time.Second * time.Duration(t.ExpiresIn)).After(t.CreatedAt.UTC())`.
`now` is the package's replaceable clock, passed here as `nowT`;
`-time.Second * time.Duration(e)` is the int64 product `(-10^9) * e`,
wrapping on overflow. -/
def isExpired (createdAt expiresIn nowT : Int) : Bool :=
  timeAfter (timeAdd nowT (wrap64 ((-1000000000) * expiresIn))) createdAt

/-- Modelled from the spec: `isNearExpired` is exercised by
`TestIsNearExpired` in the repository README but its definition is not
among the provided sources.  Per the spec, `IsNearExpiry(threshold)` is
true when the current time is within `threshold` seconds of the expiry
instant `issued-at + ttl` (the tests use a 60-second threshold), and an
uninitialized credential is always near-expiry. -/
def isNearExpired (createdAt expiresIn nowT : Int) : Bool :=
  decide (createdAt + 1000000000 * expiresIn - nowT ≤ 60 * 1000000000)

theorem wrap64_eq_of_bounds (x : Int) (h1 : -(2 ^ 63) ≤ x) (h2 : x < 2 ^ 63) :
    wrap64 x = x := by
  unfold wrap64
  rw [Int.emod_eq_of_lt (by omega) (by omega)]
  omega

theorem wrap64_lower (x : Int) : -(2 ^ 63) ≤ wrap64 x := by
  unfold wrap64
  have h := Int.emod_nonneg (x + 2 ^ 63) (b := 2 ^ 64) (by decide)
  omega

theorem wrap64_upper (x : Int) : wrap64 x < 2 ^ 63 := by
  unfold wrap64
  have h := Int.emod_lt_of_pos (x + 2 ^ 63) (b := 2 ^ 64) (by decide)
  omega

/-- C1 (counterexample): with a non-zero issued-at `T0 = unix 1234567000`
and `ttl = 890`, at the instant `now = T0 + 890 s` (current time exactly
equal to issued-at plus ttl) `isExpired` returns `false`, contradicting
the claim that it returns `true` whenever now ≥ issued-at + ttl. -/
theorem C1_boundary_counterexample :
    goUnix 1234567000 ≠ goZeroTime ∧
    timeAdd (goUnix 1234567000) (890 * 1000000000) = goUnix 1234567890 ∧
    isExpired (goUnix 1234567000) 890 (goUnix 1234567890) = false := by
  refine ⟨by decide, by decide, ?_⟩
  decide

/-- C1 (amended): for every credential whose ttl in nanoseconds fits a
64-bit signed duration, `isExpired` returns `true` iff the current time
is STRICTLY greater than issued-at plus ttl seconds; at the instant where
now exactly equals issued-at + ttl it returns `false`. -/
theorem C1_isExpired_strictly_after (c e n : Int)
    (h1 : -(2 ^ 63) < 1000000000 * e) (h2 : 1000000000 * e < 2 ^ 63) :
    (isExpired c e n = true ↔ c + 1000000000 * e < n) ∧
    isExpired c e (c + 1000000000 * e) = false := by
  have hw : wrap64 ((-1000000000) * e) = (-1000000000) * e :=
    wrap64_eq_of_bounds _ (by omega) (by omega)
  unfold isExpired timeAfter timeAdd
  rw [hw]
  constructor
  · simp only [decide_eq_true_eq]
    omega
  · simp only [decide_eq_false_iff_not]
    omega

theorem C1_isExpired_strictly_after_witness :
    -(2 ^ 63) < 1000000000 * 500 ∧ 1000000000 * 500 < 2 ^ 63 ∧
    isExpired (goUnix 1234567000) 500 (goUnix 1234567890) = true :=
  ⟨by decide, by decide,
    (C1_isExpired_strictly_after (goUnix 1234567000) 500 (goUnix 1234567890)
      (by decide) (by decide)).1.mpr (by decide)⟩

/-- C8: a credential whose issued-at is the zero time is reported expired
by `isExpired` for EVERY int64 time-to-live, including values whose
nanosecond duration overflows: the wrapped duration can shift `now` by at
most `2^63` ns (about 292 years), and every instant `time.Now()` can
return lies more than 292 years after year 1. -/
theorem C8_zero_created_always_expired (e n : Int) (hn : 2 ^ 63 < n) :
    isExpired goZeroTime e n = true := by
  unfold isExpired timeAfter timeAdd goZeroTime
  have h := wrap64_lower ((-1000000000) * e)
  simp only [decide_eq_true_eq]
  omega

theorem C8_zero_created_always_expired_witness :
    2 ^ 63 < goUnix 1234567890 ∧
    isExpired goZeroTime (2 ^ 62) (goUnix 1234567890) = true :=
  ⟨by decide, C8_zero_created_always_expired (2 ^ 62) (goUnix 1234567890) (by decide)⟩

/-- C9: with the 60-second threshold and the frozen clock of the README
tests (`now = unix 1234567890`), a credential created at
`T0 = unix 1234567000` with ttl 900 s (10 s remaining) is near-expiry,
one with ttl 951 s (61 s remaining) is not, and an uninitialized
credential (zero issued-at, zero ttl) is near-expiry at every instant at
or after the zero time. -/
theorem C9_isNearExpired_vectors :
    isNearExpired (goUnix 1234567000) 900 (goUnix 1234567890) = true ∧
    isNearExpired (goUnix 1234567000) 951 (goUnix 1234567890) = false ∧
    ∀ n : Int, 0 ≤ n → isNearExpired goZeroTime 0 n = true := by
  refine ⟨by decide, by decide, ?_⟩
  intro n hn
  unfold isNearExpired goZeroTime
  simp only [decide_eq_true_eq]
  omega

theorem C9_isNearExpired_vectors_witness :
    (0 : Int) ≤ goUnix 1234567890 ∧
    isNearExpired goZeroTime 0 (goUnix 1234567890) = true :=
  ⟨by decide, C9_isNearExpired_vectors.2.2 (goUnix 1234567890) (by decide)⟩

/-- The error kinds the embedded code can produce, mirroring the `error`
values constructed in `oauth.go` and `login.go`. -/
inductive GoError where
  /-- network / IO failure surfaced by the HTTP client or body read -/
  | transportFailure (msg : String)
  /-- `json.Unmarshal` invoked with a nil pointer target
      (`*json.InvalidUnmarshalError`) -/
  | invalidUnmarshal
  /-- `json.Unmarshal` failure on a malformed body -/
  | badBody (msg : String)
  /-- `errors.New ("OAuth response is nil")` -/
  | nilOAuthResponse
  /-- `fmt.Errorf ("onelogin oauth error: ...")` on an error status -/
  | oauthStatus (t : String) (code : Int) (msg : String)
  /-- `errors.New ("authentication failed")` -/
  | authFailed
  /-- `errors.New ("auth is nil, successful prior authentication required")` -/
  | stateNoAuth
  /-- `errors.New ("verify device not found: <device>")` -/
  | deviceNotFound (device : String)
  /-- `errors.New ("no verifyDevice assigned, ...")` -/
  | stateNoVerifyDevice
  /-- `errors.New ("verify factor failed")` -/
  | verifyFailed
deriving DecidableEq, Repr

/-- `GetTokenResponse` from `oauth.go` (JSON field tags elided). -/
structure GetTokenResponse where
  accessToken : String
  accountID : Int
  createdAt : String
  expiresIn : Int
  refreshToken : String
  tokenType : String
deriving DecidableEq, Repr

/-- The `Status` envelope embedded in `GenerateTokenResponse`. -/
structure TokenStatus where
  error : Bool
  code : Int
  type : String
  message : String
deriving DecidableEq, Repr

/-- `GenerateTokenResponse` from `oauth.go`. -/
structure GenerateTokenResponse extends GetTokenResponse where
  status : TokenStatus
deriving DecidableEq, Repr

/-- `oauthToken` from `oauth.go` (the Credential; `client` elided). -/
structure oauthToken where
  accessToken : String
  accountID : Int
  createdAt : Int
  expiresIn : Int
  tokenType : String
  refreshToken : String
deriving DecidableEq, Repr

/-- Go `json.Unmarshal (body, v)` where `v : *T` is the given pointer:
a nil pointer makes Unmarshal return `*json.InvalidUnmarshalError`
without looking at the body; a non-nil pointer decodes the body with the
ambient decoder `parse` and stores the result. -/
def jsonUnmarshalPtr {T : Type} (parse : String → Except GoError T)
    (body : String) : Option T → Except GoError (Option T)
  | none => .error .invalidUnmarshal
  | some _ =>
    match parse body with
    | .error e => .error e
    | .ok v => .ok (some v)

/-- `Client.DoOAuthGenerate` from `oauth.go`: `httpResult` is the
combined outcome of `c.client.Do` and `ioutil.ReadAll` (an error from
either propagates, otherwise the body string).  The source declares
`var oauthResp *GenerateTokenResponse = nil` and passes that nil pointer
to `json.Unmarshal`; the nil check afterwards mirrors the source. -/
def DoOAuthGenerate (parse : String → Except GoError GenerateTokenResponse)
    (httpResult : Except GoError String) : Except GoError GenerateTokenResponse :=
  match httpResult with
  | .error e => .error e
  | .ok body =>
    let oauthResp : Option GenerateTokenResponse := none
    match jsonUnmarshalPtr parse body oauthResp with
    | .error e => .error e
    | .ok none => .error .nilOAuthResponse
    | .ok (some r) => .ok r

/-- `OauthService.getToken` from `oauth.go`.  Request construction is for
fixed constant inputs and cannot fail, so it is elided; `timeParse`
embeds `time.Parse (RFC3339Nano, ·)` whose error the source ignores
(leaving the zero time). -/
def getToken (parse : String → Except GoError GenerateTokenResponse)
    (timeParse : String → Option Int)
    (httpResult : Except GoError String) : Except GoError oauthToken :=
  match DoOAuthGenerate parse httpResult with
  | .error e => .error e
  | .ok g =>
    if g.status.error then
      .error (.oauthStatus g.status.type g.status.code g.status.message)
    else
      .ok { accessToken := g.accessToken
            accountID := g.accountID
            createdAt := (timeParse g.createdAt).getD goZeroTime
            expiresIn := g.expiresIn
            tokenType := g.tokenType
            refreshToken := g.refreshToken }

/-- C2: `getToken` can NEVER return a Credential.  `DoOAuthGenerate`
passes a nil `*GenerateTokenResponse` to `json.Unmarshal`, which returns
an `InvalidUnmarshalError` for every body — including every well-formed
successful response — so for every decoder and every host body the
exchange fails with the unmarshal error, and transport errors propagate
unchanged.  This contradicts the claim that some well-formed successful
response yields a Credential and no error. -/
theorem C2_getToken_never_succeeds
    (parse : String → Except GoError GenerateTokenResponse)
    (timeParse : String → Option Int) (body : String) (e : GoError) :
    getToken parse timeParse (Except.ok body) = Except.error GoError.invalidUnmarshal ∧
    getToken parse timeParse (Except.error e) = Except.error e := by
  constructor <;> rfl

/-- `Devices` from `login.go`: a registered second-factor device. -/
structure Devices where
  deviceType : String
  deviceID : Int
deriving DecidableEq, Repr

/-- `AuthenticatedUser` from `login.go`. -/
structure AuthenticatedUser where
  id : Int
  username : String
  email : String
  firstName : String
  lastName : String
deriving DecidableEq, Repr

/-- `authResponse` from `login.go` (`User` is a Go pointer). -/
structure authResponse where
  status : String
  user : Option AuthenticatedUser
  returnToURL : String
  expiresAt : String
  sessionToken : String
  stateToken : String
  callbackUrl : String
  devices : List Devices
deriving DecidableEq, Repr

/-- The mutable fields of `LoginService`: the recorded auth response and
the selected verification device (both Go pointers, nil when unset). -/
structure LoginState where
  auth : Option authResponse
  verifyDevice : Option String
deriving DecidableEq, Repr

/-- A fresh `LoginService` (both pointers nil). -/
def freshLogin : LoginState := { auth := none, verifyDevice := none }

/-- `verifyFactorParams` from `login.go`: the body of the
`verify_factor` request. -/
structure verifyFactorParams where
  deviceID : String
  stateToken : String
  otpToken : String
  doNotNotify : Bool
deriving DecidableEq, Repr

/-- The status envelope of `responseMessage` (declared in the client
code outside the provided sources; its `Code` and `Type` fields are the
ones `login.go` reads). -/
structure respStatus where
  error : Bool
  code : Int
  type : String
  message : String
deriving DecidableEq, Repr

/-- `responseMessage`: status envelope plus raw `data` payload
(`json.RawMessage` kept as a string). -/
structure responseMessage where
  status : respStatus
  data : String
deriving DecidableEq, Repr

/-- The `LoginService` results that can follow a nil-pointer field
access: Go returns `(value, nil)`, returns `(nil, err)`, or panics on a
nil dereference. -/
inductive Outcome (α : Type) where
  | ok (a : α)
  | error (e : GoError)
  | nilDeref
deriving DecidableEq, Repr

/-- The device-resolution loop of `LoginService.verifyFactor`:
`deviceID` starts empty; the first list entry whose `DeviceType` equals
`device` sets it to `strconv.FormatInt (d.DeviceID, 10)` and breaks. -/
def findDeviceID : List Devices → String → String
  | [], _ => ""
  | d :: rest, device =>
    if d.deviceType == device then Int.repr d.deviceID
    else findDeviceID rest device

/-- `LoginService.authenticate` from `login.go`: `doResult` is the
decoded outcome of `s.client.Do (ctx, req, &d)` (request construction
with fixed endpoint cannot fail; an authorization or transport error
propagates).  Success requires exactly one response element whose status
is "Authenticated" or whose state token is non-empty; only then is
`s.auth` recorded. -/
def authenticate (s : LoginState)
    (doResult : Except GoError (List authResponse)) :
    LoginState × Except GoError authResponse :=
  match doResult with
  | .error e => (s, .error e)
  | .ok d =>
    match d with
    | [r] =>
      if r.status == "Authenticated" || r.stateToken != "" then
        ({ s with auth := some r }, .ok r)
      else (s, .error .authFailed)
    | _ => (s, .error .authFailed)

/-- The response-interpretation tail of `LoginService.verifyFactor`
(after the request is issued): decode `responseMessage` from the raw
body, return `(nil, nil)` on a 200/"pending" status, decode and accept a
single "Authenticated" element on 200/"success", and fail with
`verify factor failed` otherwise. -/
def handleVerifyBody (parseMsg : String → Except GoError responseMessage)
    (parseAuthList : String → Except GoError (List authResponse))
    (doResult : Except GoError String) : Except GoError (Option authResponse) :=
  match doResult with
  | .error e => .error e
  | .ok body =>
    match parseMsg body with
    | .error e => .error e
    | .ok m =>
      if m.status.code == 200 && m.status.type == "pending" then
        .ok none
      else if m.status.code == 200 && m.status.type == "success" then
        match parseAuthList m.data with
        | .error e => .error e
        | .ok d =>
          match d with
          | [r] =>
            if r.status == "Authenticated" then .ok (some r)
            else .error .verifyFailed
          | _ => .error .verifyFailed
      else .error .verifyFailed

/-- `LoginService.verifyFactor` from `login.go`.  `doCall` is the
transport: it receives the request parameters the function builds and
returns the raw response body or an error (authorization and transport
failures alike).  The source sets `s.verifyDevice = &device` after
device resolution and BEFORE issuing the request. -/
def verifyFactor (parseMsg : String → Except GoError responseMessage)
    (parseAuthList : String → Except GoError (List authResponse))
    (s : LoginState) (device token : String) (doNotVerify : Bool)
    (doCall : verifyFactorParams → Except GoError String) :
    LoginState × Except GoError (Option authResponse) :=
  match s.auth with
  | none => (s, .error .stateNoAuth)
  | some auth =>
    let deviceID := findDeviceID auth.devices device
    if deviceID == "" then
      (s, .error (.deviceNotFound device))
    else
      let s1 := { s with verifyDevice := some device }
      let a : verifyFactorParams :=
        { deviceID := deviceID
          stateToken := auth.stateToken
          otpToken := token
          doNotNotify := doNotVerify }
      (s1, handleVerifyBody parseMsg parseAuthList (doCall a))

/-- `LoginService.AuthenticateWithVerify` from `login.go`: password step
then `verifyFactor (device, token, true)`; on nil error the result
pointer `authv` is dereferenced for its `User` field. -/
def AuthenticateWithVerify (parseMsg : String → Except GoError responseMessage)
    (parseAuthList : String → Except GoError (List authResponse))
    (s : LoginState) (device token : String)
    (authDoResult : Except GoError (List authResponse))
    (doCall : verifyFactorParams → Except GoError String) :
    LoginState × Outcome (Option AuthenticatedUser) :=
  match authenticate s authDoResult with
  | (s1, .error e) => (s1, .error e)
  | (s1, .ok _) =>
    match verifyFactor parseMsg parseAuthList s1 device token true doCall with
    | (s2, .error e) => (s2, .error e)
    | (s2, .ok none) => (s2, .nilDeref)
    | (s2, .ok (some a)) => (s2, .ok a.user)

/-- `LoginService.VerifyPushToken` from `login.go`: requires a selected
`verifyDevice`, then calls `verifyFactor` with the remembered device,
the supplied token, and `doNotVerify = true`; on nil error the result
pointer `auth` is dereferenced for its `User` field. -/
def VerifyPushToken (parseMsg : String → Except GoError responseMessage)
    (parseAuthList : String → Except GoError (List authResponse))
    (s : LoginState) (token : String)
    (doCall : verifyFactorParams → Except GoError String) :
    LoginState × Outcome (Option AuthenticatedUser) :=
  match s.verifyDevice with
  | none => (s, .error .stateNoVerifyDevice)
  | some dev =>
    match verifyFactor parseMsg parseAuthList s dev token true doCall with
    | (s1, .error e) => (s1, .error e)
    | (s1, .ok none) => (s1, .nilDeref)
    | (s1, .ok (some a)) => (s1, .ok a.user)

theorem toDigitsCore_length_le (b : Nat) (fuel : Nat) :
    ∀ (n : Nat) (acc : List Char),
      acc.length ≤ (Nat.toDigitsCore b fuel n acc).length := by
  induction fuel with
  | zero => intro n acc; simp [Nat.toDigitsCore]
  | succ f ih =>
    intro n acc
    simp only [Nat.toDigitsCore]
    by_cases h : n / b = 0
    · simp [h]
    · simp only [h, if_false]
      calc acc.length ≤ (Nat.digitChar (n % b) :: acc).length := by simp
        _ ≤ _ := ih _ _

theorem toDigits_ne_nil (b n : Nat) : Nat.toDigits b n ≠ [] := by
  unfold Nat.toDigits Nat.toDigitsCore
  by_cases h : n / b = 0
  · simp [h]
  · simp only [h, if_false]
    intro hc
    have hl := toDigitsCore_length_le b n (n / b) [Nat.digitChar (n % b)]
    rw [hc] at hl
    simp at hl

theorem Nat_repr_ne_empty (n : Nat) : Nat.repr n ≠ "" := by
  unfold Nat.repr
  intro h
  apply toDigits_ne_nil 10 n
  have hd := congrArg String.data h
  simpa [List.asString] using hd

theorem Int_repr_ne_empty (i : Int) : Int.repr i ≠ "" := by
  cases i with
  | ofNat n => exact Nat_repr_ne_empty n
  | negSucc n =>
    show "-" ++ Nat.repr (n + 1) ≠ ""
    intro h
    have hd := congrArg String.data h
    simp [String.data_append] at hd

theorem findDeviceID_eq_find? (l : List Devices) (device : String) :
    findDeviceID l device =
      match l.find? (fun d => d.deviceType == device) with
      | none => ""
      | some d => Int.repr d.deviceID := by
  induction l with
  | nil => rfl
  | cons d rest ih =>
    cases hb : d.deviceType == device with
    | true => simp [findDeviceID, List.find?_cons, hb]
    | false => simp [findDeviceID, List.find?_cons, hb, ih]

theorem findDeviceID_of_find?_none (l : List Devices) (device : String)
    (h : l.find? (fun d => d.deviceType == device) = none) :
    findDeviceID l device = "" := by
  rw [findDeviceID_eq_find?, h]

theorem findDeviceID_of_find?_some (l : List Devices) (device : String)
    (d0 : Devices) (h : l.find? (fun d => d.deviceType == device) = some d0) :
    findDeviceID l device = Int.repr d0.deviceID ∧
    (findDeviceID l device == "") = false := by
  have h1 : findDeviceID l device = Int.repr d0.deviceID := by
    rw [findDeviceID_eq_find?, h]
  refine ⟨h1, ?_⟩
  rw [h1, beq_eq_false_iff_ne]
  exact Int_repr_ne_empty d0.deviceID

/- Concrete fixtures used by the closed counterexamples and witnesses. -/

/-- A sample authenticated user. -/
def sampleUser : AuthenticatedUser :=
  { id := 7, username := "jdoe", email := "jdoe@example.com",
    firstName := "J", lastName := "Doe" }

/-- A sample registered second-factor device. -/
def smsDevice : Devices := { deviceType := "OneLogin SMS", deviceID := 42 }

/-- A login response that carries a state token but an EMPTY device
list. -/
def tokenOnlyResponse : authResponse :=
  { status := "", user := some sampleUser, returnToURL := "",
    expiresAt := "", sessionToken := "", stateToken := "tok123",
    callbackUrl := "", devices := [] }

/-- A login response that carries a state token and one device. -/
def mfaResponse : authResponse :=
  { status := "", user := some sampleUser, returnToURL := "",
    expiresAt := "", sessionToken := "", stateToken := "st7",
    callbackUrl := "", devices := [smsDevice] }

/-- A session that has completed the password step with MFA pending. -/
def awaitingState : LoginState :=
  { auth := some mfaResponse, verifyDevice := none }

/-- A session with a pending push: password step done and a device
selected by a prior `verifyFactor` call. -/
def pushPendingState : LoginState :=
  { auth := some mfaResponse, verifyDevice := some "OneLogin SMS" }

/-- A 200/"pending" `responseMessage`. -/
def pendingMsg : responseMessage :=
  { status := { error := false, code := 200, type := "pending", message := "" },
    data := "" }

/-- A decoder that yields the pending message for every body. -/
def stubMsgDecode : String → Except GoError responseMessage :=
  fun _ => Except.ok pendingMsg

/-- A decoder for the embedded auth-response list. -/
def stubListDecode : String → Except GoError (List authResponse) :=
  fun _ => Except.ok []

/-- A transport whose call fails. -/
def stubTransportDown : verifyFactorParams → Except GoError String :=
  fun _ => Except.error (GoError.transportFailure "conn reset")

/-- A transport that always hands back the same body. -/
def stubTransportBody : verifyFactorParams → Except GoError String :=
  fun _ => Except.ok "resp"

/-- C3 (counterexample): a single-element response carrying a non-empty
state token and an EMPTY device list makes `authenticate` succeed and
record the response, where the claim says every such response fails with
an `AuthError` and records nothing. -/
theorem C3_empty_device_list_counterexample :
    tokenOnlyResponse.stateToken ≠ "" ∧
    tokenOnlyResponse.devices = [] ∧
    authenticate freshLogin (Except.ok [tokenOnlyResponse])
      = ({ auth := some tokenOnlyResponse, verifyDevice := none },
         Except.ok tokenOnlyResponse) := by
  refine ⟨by decide, rfl, rfl⟩

/-- C3 (amended): `authenticate` succeeds and records the response iff
the decoded list has exactly one element whose status is "Authenticated"
or whose state token is non-empty — regardless of the device list; on a
transport error the error propagates, and every other shape (status not
"Authenticated" with empty state token, or not exactly one element)
fails with the `authentication failed` error and records nothing. -/
theorem C3_authenticate_characterization (s : LoginState)
    (doResult : Except GoError (List authResponse)) :
    (∀ e, doResult = Except.error e → authenticate s doResult = (s, Except.error e)) ∧
    (∀ r, doResult = Except.ok [r] →
      (r.status = "Authenticated" ∨ r.stateToken ≠ "") →
      authenticate s doResult = ({ s with auth := some r }, Except.ok r)) ∧
    (∀ r, doResult = Except.ok [r] →
      r.status ≠ "Authenticated" → r.stateToken = "" →
      authenticate s doResult = (s, Except.error GoError.authFailed)) ∧
    (∀ d, doResult = Except.ok d → d.length ≠ 1 →
      authenticate s doResult = (s, Except.error GoError.authFailed)) := by
  refine ⟨?_, ?_, ?_, ?_⟩
  · intro e he; subst he; rfl
  · intro r hr hok
    subst hr
    have hc : (r.status == "Authenticated" || r.stateToken != "") = true := by
      rcases hok with h | h
      · simp [h]
      · simp [h]
    simp [authenticate, hc]
  · intro r hr h1 h2
    subst hr
    have hc : (r.status == "Authenticated" || r.stateToken != "") = false := by
      simp [h1, h2]
    simp [authenticate, hc]
  · intro d hd hlen
    subst hd
    match d, hlen with
    | [], _ => rfl
    | [r], h => exact absurd rfl h
    | a :: b :: rest, _ => rfl

theorem C3_authenticate_characterization_witness :
    authenticate freshLogin (Except.ok [tokenOnlyResponse])
      = ({ freshLogin with auth := some tokenOnlyResponse },
         Except.ok tokenOnlyResponse) :=
  (C3_authenticate_characterization freshLogin
      (Except.ok [tokenOnlyResponse])).2.1 tokenOnlyResponse rfl
    (Or.inr (by decide))

/-- C4: on a state whose recorded auth is nil (in particular a fresh
`LoginService`), `verifyFactor` fails with the
`auth is nil, successful prior authentication required` error for every
device tag, OTP, and notify flag, leaves the state unchanged, and never
consults the transport (`doCall` is arbitrary and unused). -/
theorem C4_verifyFactor_requires_auth
    (parseMsg : String → Except GoError responseMessage)
    (parseAuthList : String → Except GoError (List authResponse))
    (s : LoginState) (device token : String) (dnv : Bool)
    (doCall : verifyFactorParams → Except GoError String)
    (hs : s.auth = none) :
    verifyFactor parseMsg parseAuthList s device token dnv doCall
      = (s, Except.error GoError.stateNoAuth) := by
  unfold verifyFactor
  rw [hs]

theorem C4_verifyFactor_requires_auth_witness :
    freshLogin.auth = none ∧
    verifyFactor stubMsgDecode stubListDecode freshLogin
        "OneLogin SMS" "123456" false stubTransportDown
      = (freshLogin, Except.error GoError.stateNoAuth) :=
  ⟨rfl, C4_verifyFactor_requires_auth stubMsgDecode stubListDecode freshLogin
    "OneLogin SMS" "123456" false stubTransportDown rfl⟩

/-- C5: on an authenticated session, a device tag with no exact match in
the recorded device list makes `verifyFactor` fail with the
`verify device not found` error naming the device, for every OTP and
notify flag; when a match exists, the request submitted to the transport
carries the decimal identifier of the FIRST matching device, the
recorded state token, and the supplied OTP. -/
theorem C5_verifyFactor_device_resolution
    (parseMsg : String → Except GoError responseMessage)
    (parseAuthList : String → Except GoError (List authResponse))
    (s : LoginState) (auth : authResponse) (device token : String)
    (dnv : Bool) (doCall : verifyFactorParams → Except GoError String)
    (hs : s.auth = some auth) :
    (auth.devices.find? (fun d => d.deviceType == device) = none →
      verifyFactor parseMsg parseAuthList s device token dnv doCall
        = (s, Except.error (GoError.deviceNotFound device))) ∧
    (∀ d0, auth.devices.find? (fun d => d.deviceType == device) = some d0 →
      verifyFactor parseMsg parseAuthList s device token dnv doCall
        = ({ s with verifyDevice := some device },
           handleVerifyBody parseMsg parseAuthList
             (doCall { deviceID := Int.repr d0.deviceID
                       stateToken := auth.stateToken
                       otpToken := token
                       doNotNotify := dnv }))) := by
  constructor
  · intro hf
    have h0 := findDeviceID_of_find?_none auth.devices device hf
    unfold verifyFactor
    rw [hs]
    simp [h0]
  · intro d0 hf
    obtain ⟨h1, h2⟩ := findDeviceID_of_find?_some auth.devices device d0 hf
    have h3 : (Int.repr d0.deviceID == "") = false := by
      rw [beq_eq_false_iff_ne]
      exact Int_repr_ne_empty d0.deviceID
    unfold verifyFactor
    rw [hs]
    simp [h1, h3]

theorem C5_verifyFactor_device_resolution_witness :
    awaitingState.auth = some mfaResponse ∧
    mfaResponse.devices.find? (fun d => d.deviceType == "OneLogin SMS")
      = some smsDevice ∧
    mfaResponse.devices.find? (fun d => d.deviceType == "Google Authenticator")
      = none ∧
    verifyFactor stubMsgDecode stubListDecode awaitingState
        "Google Authenticator" "111" false stubTransportDown
      = (awaitingState, Except.error (GoError.deviceNotFound "Google Authenticator")) ∧
    verifyFactor stubMsgDecode stubListDecode awaitingState
        "OneLogin SMS" "111" false stubTransportDown
      = ({ awaitingState with verifyDevice := some "OneLogin SMS" },
         handleVerifyBody stubMsgDecode stubListDecode
           (stubTransportDown
             { deviceID := Int.repr smsDevice.deviceID
               stateToken := mfaResponse.stateToken
               otpToken := "111"
               doNotNotify := false })) :=
  ⟨rfl, by decide, by decide,
    (C5_verifyFactor_device_resolution stubMsgDecode stubListDecode awaitingState
      mfaResponse "Google Authenticator" "111" false stubTransportDown rfl).1
      (by decide),
    (C5_verifyFactor_device_resolution stubMsgDecode stubListDecode awaitingState
      mfaResponse "OneLogin SMS" "111" false stubTransportDown rfl).2
      smsDevice (by decide)⟩

/-- C6 (counterexample): on a session awaiting a factor with no device
yet selected, a `verifyFactor` call that fails at the transport still
mutates the state: `verifyDevice` is set to the requested device tag
before the request is issued, so the state after the failed call differs
from the state before it, contradicting the claim that the whole state
is unchanged on error. -/
theorem C6_failed_verify_mutates_state_counterexample :
    awaitingState.verifyDevice = none ∧
    verifyFactor stubMsgDecode stubListDecode awaitingState "OneLogin SMS"
        "111" false stubTransportDown
      = ({ awaitingState with verifyDevice := some "OneLogin SMS" },
         Except.error (GoError.transportFailure "conn reset")) ∧
    ({ awaitingState with verifyDevice := some "OneLogin SMS" } : LoginState)
      ≠ awaitingState := by
  refine ⟨rfl, rfl, by decide⟩

/-- C6 (amended): whenever `verifyFactor` returns an error, the recorded
auth response (state token, device list, user) is unchanged, so the
caller may retry without re-authenticating; the selected verification
device, however, is only unchanged on the StateError / NotFoundError
paths — on an error after device resolution it has been overwritten with
the requested device tag. -/
theorem C6_verifyFactor_error_preserves_auth
    (parseMsg : String → Except GoError responseMessage)
    (parseAuthList : String → Except GoError (List authResponse))
    (s : LoginState) (device token : String) (dnv : Bool)
    (doCall : verifyFactorParams → Except GoError String)
    (s1 : LoginState) (e : GoError)
    (h : verifyFactor parseMsg parseAuthList s device token dnv doCall
          = (s1, Except.error e)) :
    s1.auth = s.auth ∧
    (s1 = s ∨ s1 = { s with verifyDevice := some device }) := by
  unfold verifyFactor at h
  cases hA : s.auth with
  | none =>
    rw [hA] at h
    rw [Prod.mk.injEq] at h
    obtain ⟨h1, _⟩ := h
    subst h1
    exact ⟨hA, Or.inl rfl⟩
  | some auth =>
    rw [hA] at h
    simp only at h
    split at h
    · rw [Prod.mk.injEq] at h
      obtain ⟨h1, _⟩ := h
      subst h1
      exact ⟨hA, Or.inl rfl⟩
    · rw [Prod.mk.injEq] at h
      obtain ⟨h1, _⟩ := h
      subst h1
      exact ⟨rfl, Or.inr rfl⟩

theorem C6_verifyFactor_error_preserves_auth_witness :
    ({ awaitingState with verifyDevice := some "OneLogin SMS" } : LoginState).auth
        = awaitingState.auth ∧
    (({ awaitingState with verifyDevice := some "OneLogin SMS" } : LoginState)
        = awaitingState ∨
     ({ awaitingState with verifyDevice := some "OneLogin SMS" } : LoginState)
        = { awaitingState with verifyDevice := some "OneLogin SMS" }) :=
  C6_verifyFactor_error_preserves_auth stubMsgDecode stubListDecode
    awaitingState "OneLogin SMS" "111" false stubTransportDown
    { awaitingState with verifyDevice := some "OneLogin SMS" }
    (GoError.transportFailure "conn reset") rfl

/-- C7: `VerifyPushToken` fails with the `no verifyDevice assigned`
error when no device was previously selected; otherwise, for every OTP,
it is exactly the `verifyFactor` logic applied to the remembered device,
the supplied token, and `doNotVerify = true` (do-not-re-notify), with a
nil result pointer dereferenced for its user field. -/
theorem C7_VerifyPushToken_delegates
    (parseMsg : String → Except GoError responseMessage)
    (parseAuthList : String → Except GoError (List authResponse))
    (s : LoginState) (token : String)
    (doCall : verifyFactorParams → Except GoError String) :
    (s.verifyDevice = none →
      VerifyPushToken parseMsg parseAuthList s token doCall
        = (s, Outcome.error GoError.stateNoVerifyDevice)) ∧
    (∀ dev, s.verifyDevice = some dev →
      VerifyPushToken parseMsg parseAuthList s token doCall
        = ((verifyFactor parseMsg parseAuthList s dev token true doCall).1,
           match (verifyFactor parseMsg parseAuthList s dev token true doCall).2 with
           | Except.error e => Outcome.error e
           | Except.ok none => Outcome.nilDeref
           | Except.ok (some a) => Outcome.ok a.user)) := by
  constructor
  · intro h
    unfold VerifyPushToken
    rw [h]
  · intro dev h
    have hred : VerifyPushToken parseMsg parseAuthList s token doCall
        = (match verifyFactor parseMsg parseAuthList s dev token true doCall with
           | (s1, Except.error e) => (s1, Outcome.error e)
           | (s1, Except.ok none) => (s1, Outcome.nilDeref)
           | (s1, Except.ok (some a)) => (s1, Outcome.ok a.user)) := by
      unfold VerifyPushToken
      rw [h]
    rw [hred]
    rcases hv : verifyFactor parseMsg parseAuthList s dev token true doCall
      with ⟨s1, r⟩
    rcases r with e | a
    · rfl
    · rcases a with _ | a <;> rfl

theorem C7_VerifyPushToken_delegates_witness :
    freshLogin.verifyDevice = none ∧
    VerifyPushToken stubMsgDecode stubListDecode freshLogin "123"
        stubTransportDown
      = (freshLogin, Outcome.error GoError.stateNoVerifyDevice) ∧
    VerifyPushToken stubMsgDecode stubListDecode pushPendingState "123"
        stubTransportDown
      = ((verifyFactor stubMsgDecode stubListDecode pushPendingState
            "OneLogin SMS" "123" true stubTransportDown).1,
         match (verifyFactor stubMsgDecode stubListDecode pushPendingState
            "OneLogin SMS" "123" true stubTransportDown).2 with
         | Except.error e => Outcome.error e
         | Except.ok none => Outcome.nilDeref
         | Except.ok (some a) => Outcome.ok a.user) :=
  ⟨rfl,
    (C7_VerifyPushToken_delegates stubMsgDecode stubListDecode freshLogin
      "123" stubTransportDown).1 rfl,
    (C7_VerifyPushToken_delegates stubMsgDecode stubListDecode pushPendingState
      "123" stubTransportDown).2 "OneLogin SMS" rfl⟩

/-- C10: when the `verify_factor` response decodes to status code 200
with type "pending", `verifyFactor` returns a nil auth response with a
nil error (`Except.ok none`); consequently `VerifyPushToken` and
`AuthenticateWithVerify`, which dereference the returned pointer for its
`User` field after their nil-error check, hit a nil-pointer dereference
on that path instead of returning a value or an error. -/
theorem C10_pending_response_nil_deref
    (parseMsg : String → Except GoError responseMessage)
    (parseAuthList : String → Except GoError (List authResponse))
    (doCall : verifyFactorParams → Except GoError String)
    (body : String) (m : responseMessage)
    (hcall : ∀ a, doCall a = Except.ok body)
    (hm : parseMsg body = Except.ok m)
    (hcode : m.status.code = 200)
    (htype : m.status.type = "pending") :
    (∀ s auth device token dnv d0, s.auth = some auth →
      auth.devices.find? (fun d => d.deviceType == device) = some d0 →
      verifyFactor parseMsg parseAuthList s device token dnv doCall
        = ({ s with verifyDevice := some device }, Except.ok none)) ∧
    (∀ s auth device token d0, s.auth = some auth →
      s.verifyDevice = some device →
      auth.devices.find? (fun d => d.deviceType == device) = some d0 →
      VerifyPushToken parseMsg parseAuthList s token doCall
        = ({ s with verifyDevice := some device }, Outcome.nilDeref)) ∧
    (∀ s r device token d0,
      (r.status = "Authenticated" ∨ r.stateToken ≠ "") →
      r.devices.find? (fun d => d.deviceType == device) = some d0 →
      AuthenticateWithVerify parseMsg parseAuthList s device token
          (Except.ok [r]) doCall
        = ({ auth := some r, verifyDevice := some device }, Outcome.nilDeref)) := by
  have hbody : ∀ a, handleVerifyBody parseMsg parseAuthList (doCall a)
      = Except.ok none := by
    intro a
    rw [hcall a]
    unfold handleVerifyBody
    simp [hm, hcode, htype]
  have key : ∀ s auth device token dnv d0, s.auth = some auth →
      auth.devices.find? (fun d => d.deviceType == device) = some d0 →
      verifyFactor parseMsg parseAuthList s device token dnv doCall
        = ({ s with verifyDevice := some device }, Except.ok none) := by
    intro s auth device token dnv d0 hs hf
    obtain ⟨h1, _⟩ := findDeviceID_of_find?_some auth.devices device d0 hf
    have h3 : (Int.repr d0.deviceID == "") = false := by
      rw [beq_eq_false_iff_ne]
      exact Int_repr_ne_empty d0.deviceID
    unfold verifyFactor
    rw [hs]
    simp [h1, h3, hbody]
  refine ⟨key, ?_, ?_⟩
  · intro s auth device token d0 hs hv hf
    have hred : VerifyPushToken parseMsg parseAuthList s token doCall
        = (match verifyFactor parseMsg parseAuthList s device token true doCall with
           | (s1, Except.error e) => (s1, Outcome.error e)
           | (s1, Except.ok none) => (s1, Outcome.nilDeref)
           | (s1, Except.ok (some a)) => (s1, Outcome.ok a.user)) := by
      unfold VerifyPushToken
      rw [hv]
    rw [hred, key s auth device token true d0 hs hf]
  · intro s r device token d0 hok hf
    have hc : (r.status == "Authenticated" || r.stateToken != "") = true := by
      rcases hok with h | h
      · simp [h]
      · simp [h]
    have ha : authenticate s (Except.ok [r])
        = ({ s with auth := some r }, Except.ok r) := by
      simp [authenticate, hc]
    have hred : AuthenticateWithVerify parseMsg parseAuthList s device token
          (Except.ok [r]) doCall
        = (match verifyFactor parseMsg parseAuthList { s with auth := some r }
              device token true doCall with
           | (s2, Except.error e) => (s2, Outcome.error e)
           | (s2, Except.ok none) => (s2, Outcome.nilDeref)
           | (s2, Except.ok (some a)) => (s2, Outcome.ok a.user)) := by
      unfold AuthenticateWithVerify
      rw [ha]
    rw [hred, key { s with auth := some r } r device token true d0 rfl hf]

theorem C10_pending_response_nil_deref_witness :
    verifyFactor stubMsgDecode stubListDecode awaitingState "OneLogin SMS"
        "9999" false stubTransportBody
      = ({ awaitingState with verifyDevice := some "OneLogin SMS" },
         Except.ok none) ∧
    VerifyPushToken stubMsgDecode stubListDecode pushPendingState "9999"
        stubTransportBody
      = ({ pushPendingState with verifyDevice := some "OneLogin SMS" },
         Outcome.nilDeref) ∧
    AuthenticateWithVerify stubMsgDecode stubListDecode freshLogin
        "OneLogin SMS" "9999" (Except.ok [mfaResponse]) stubTransportBody
      = ({ auth := some mfaResponse, verifyDevice := some "OneLogin SMS" },
         Outcome.nilDeref) :=
  ⟨(C10_pending_response_nil_deref stubMsgDecode stubListDecode
      stubTransportBody "resp" pendingMsg (fun _ => rfl) rfl rfl rfl).1
      awaitingState mfaResponse "OneLogin SMS" "9999" false smsDevice rfl
      (by decide),
    (C10_pending_response_nil_deref stubMsgDecode stubListDecode
      stubTransportBody "resp" pendingMsg (fun _ => rfl) rfl rfl rfl).2.1
      pushPendingState mfaResponse "OneLogin SMS" "9999" smsDevice rfl rfl
      (by decide),
    (C10_pending_response_nil_deref stubMsgDecode stubListDecode
      stubTransportBody "resp" pendingMsg (fun _ => rfl) rfl rfl rfl).2.2
      freshLogin mfaResponse "OneLogin SMS" "9999" smsDevice
      (Or.inr (by decide)) (by decide)⟩
